import Mathlib

/-!
Shallow embedding of the SimpleGet repository:
  - `SimpleGetPlugin::callApplication` from src/Plugin/simpleGetPlugin/simpleGetPlugin.cc
  - `NP_GetValue` and `NP_GetMIMEDescription` from src/Plugin/simpleGetPlugin/plugin.cc
  - class `Complex` from src/Plugin/nixysa/examples/complex/complex.h
Side effects (process creation, writes through the NPAPI value pointer) are made
explicit: `callApplication` returns the list of OS calls it performs alongside its
status string, and `NP_GetValue` takes and returns the contents of the memory the
`value` pointer refers to.
-/

namespace SimpleGet

/-- The compile-time OS families distinguished by the `#ifdef OS_WINDOWS` /
`OS_LINUX` / `OS_MACOSX` branches of simpleGetPlugin.cc. -/
inductive OSFamily where
  | windows
  | linux
  | macosx
deriving DecidableEq

/-- An invocation of an OS process-launch facility: `CreateProcess` with an
application name and a command-line string, or `system` with a shell command. -/
inductive OSCall where
  | createProcess (application commandLine : String)
  | systemCmd (command : String)
deriving DecidableEq

/-- `#define MSG_OK ""` in simpleGetPlugin.cc. -/
def MSG_OK : String := ""

/-- `#define MSG_NO_COMMAND_PROCESSOR ...` in simpleGetPlugin.cc (typo as in source). -/
def MSG_NO_COMMAND_PROCESSOR : String := "the sytem does not support command invocation"

/-- `#define MSG_INVALID_COMMAND "invalid command"` in simpleGetPlugin.cc. -/
def MSG_INVALID_COMMAND : String := "invalid command"

/-- `SimpleGetPlugin::callApplication` from simpleGetPlugin.cc.  The checks that
would return `MSG_NO_COMMAND_PROCESSOR` or `MSG_INVALID_COMMAND` are commented out
in the source, so they do not appear here.  `spawn` is the OS's outcome for each
launch call; the source discards it (`CreateProcess` and `system` return values are
never inspected).  The result is the returned status string paired with the list of
OS launch calls performed. -/
def callApplication (os : OSFamily) (spawn : OSCall → Int) (application parameters : String) :
    String × List OSCall :=
  match os with
  | .windows =>
      let parameters := " " ++ parameters
      let _ := spawn (OSCall.createProcess application parameters)
      (MSG_OK, [OSCall.createProcess application parameters])
  | .linux | .macosx =>
      let cmd := application ++ " " ++ parameters ++ " &"
      let _ := spawn (OSCall.systemCmd cmd)
      (MSG_OK, [OSCall.systemCmd cmd])

/-- Modelled from the spec: the Windows process-creation API (`CreateProcess`,
declared in windows.h, not part of src/) is described by the spec as running an
effective command line consisting of the application name, a space, and the
supplied parameter string. -/
def windowsCommandLine (application commandLineParams : String) : String :=
  application ++ " " ++ commandLineParams

/-- Modelled from the spec: NPAPI constant `NPPVpluginNameString` from npapi.h
(the NPAPI ABI header, not part of src/). -/
def NPPVpluginNameString : Nat := 1

/-- Modelled from the spec: NPAPI constant `NPPVpluginDescriptionString` from
npapi.h (not part of src/). -/
def NPPVpluginDescriptionString : Nat := 2

/-- Modelled from the spec: NPAPI constant `NPERR_NO_ERROR` from npapi.h
(not part of src/). -/
def NPERR_NO_ERROR : Nat := 0

/-- Modelled from the spec: NPAPI constant `NPERR_INVALID_PARAM` from npapi.h
(not part of src/). -/
def NPERR_INVALID_PARAM : Nat := 9

/-- `NP_GetValue` from plugin.cc.  `npp` is the (unused) instance argument.
`mem` is the current contents of the memory the `value` pointer refers to; the
result pairs the returned `NPError` with the (possibly updated) contents. -/
def NP_GetValue (npp : Nat) (npVariable : Nat) (mem : String) : Nat × String :=
  if npVariable = NPPVpluginNameString then
    (NPERR_NO_ERROR, "Simple Get Plugin")
  else if npVariable = NPPVpluginDescriptionString then
    (NPERR_NO_ERROR, "Connects the Simple Get extesion to the download managers")
  else
    (NPERR_INVALID_PARAM, mem)

/-- `NP_GetMIMEDescription` from plugin.cc (typo `extesion` as in source). -/
def NP_GetMIMEDescription (_ : Unit) : String :=
  "application/x-simplegetplugin::Connects the Simple Get extesion to the download managers"

/-- The characters preceding the first occurrence of the `::` separator. -/
def beforeDoubleColon : List Char → List Char
  | [] => []
  | ':' :: ':' :: _ => []
  | c :: cs => c :: beforeDoubleColon cs

/-- The segment of a MIME-description string before the first `::` separator. -/
def mimeTypeOf (s : String) : String :=
  ⟨beforeDoubleColon s.data⟩

/-- Class `Complex` from complex.h: two float fields `real_` and `imaginary_`.
The `float` fields are modelled as `Float`; the claims proved below involve only
stores, loads and the literal `0.f`, no float arithmetic. -/
structure Complex where
  real_ : Float
  imaginary_ : Float

/-- The default constructor `Complex() : real_(0.f), imaginary_(0.f)`. -/
def Complex.mkDefault : Complex := ⟨0, 0⟩

/-- Getter `float real() const { return real_; }`. -/
def Complex.real (c : Complex) : Float := c.real_

/-- Setter `void set_real(float value) { real_ = value; }`. -/
def Complex.set_real (c : Complex) (value : Float) : Complex :=
  { c with real_ := value }

/-- Getter `float imaginary() const { return imaginary_; }`. -/
def Complex.imaginary (c : Complex) : Float := c.imaginary_

/-- Setter `void set_imaginary(float value) { imaginary_ = value; }`. -/
def Complex.set_imaginary (c : Complex) (value : Float) : Complex :=
  { c with imaginary_ := value }

/-- C1: for every OS family, every spawn outcome (including one where every spawn
fails), and every pair of input strings — in particular a nonexistent binary path
with empty parameters — `callApplication` returns the empty string `""`, the fixed
OK status. -/
theorem callApplication_always_returns_ok (os : OSFamily) (spawn : OSCall → Int)
    (application parameters : String) :
    (callApplication os spawn application parameters).1 = "" := by
  cases os <;> rfl

/-- C2: on the POSIX-family targets (`OS_LINUX` and `OS_MACOSX`), the command
string passed to the shell-execution facility `system` is exactly
`application ++ " " ++ parameters ++ " &"`. -/
theorem callApplication_posix_command (spawn : OSCall → Int)
    (application parameters : String) :
    (callApplication .linux spawn application parameters).2 =
        [OSCall.systemCmd (application ++ " " ++ parameters ++ " &")] ∧
    (callApplication .macosx spawn application parameters).2 =
        [OSCall.systemCmd (application ++ " " ++ parameters ++ " &")] := by
  exact ⟨rfl, rfl⟩

/-- C3: on Windows-family targets, the parameter string passed to the OS
process-creation call `CreateProcess` is exactly `" " ++ parameters`, and the
application argument is passed unchanged. -/
theorem callApplication_windows_parameters (spawn : OSCall → Int)
    (application parameters : String) :
    (callApplication .windows spawn application parameters).2 =
        [OSCall.createProcess application (" " ++ parameters)] := rfl

/-- C4: of the three-message taxonomy, only `MSG_OK` is ever returned: the result
equals `MSG_OK` and differs from both `MSG_NO_COMMAND_PROCESSOR` and
`MSG_INVALID_COMMAND`, for every OS family, spawn outcome and input; no spawn
failure is surfaced. -/
theorem callApplication_only_ok (os : OSFamily) (spawn : OSCall → Int)
    (application parameters : String) :
    (callApplication os spawn application parameters).1 = MSG_OK ∧
    (callApplication os spawn application parameters).1 ≠ MSG_NO_COMMAND_PROCESSOR ∧
    (callApplication os spawn application parameters).1 ≠ MSG_INVALID_COMMAND := by
  refine ⟨?_, ?_, ?_⟩ <;> cases os <;> simp [callApplication, MSG_OK,
    MSG_NO_COMMAND_PROCESSOR, MSG_INVALID_COMMAND]

/-- C5: on Windows, `callApplication "notepad.exe" "file.txt"` passes
`"notepad.exe"` as the application and `" file.txt"` as the parameter string, so
the effective command line is `"notepad.exe  file.txt"` (two spaces, from the
leading-space construction), and the call returns `""`. -/
theorem callApplication_notepad_scenario (spawn : OSCall → Int) :
    (callApplication .windows spawn "notepad.exe" "file.txt").1 = "" ∧
    (callApplication .windows spawn "notepad.exe" "file.txt").2 =
        [OSCall.createProcess "notepad.exe" " file.txt"] ∧
    windowsCommandLine "notepad.exe" " file.txt" = "notepad.exe  file.txt" := by
  refine ⟨rfl, rfl, ?_⟩
  decide

/-- C6: `NP_GetValue` reports the plugin metadata: for `NPPVpluginNameString` it
writes `"Simple Get Plugin"` and returns `NPERR_NO_ERROR`; for
`NPPVpluginDescriptionString` it writes the description string and returns
`NPERR_NO_ERROR`; for every other variable it returns `NPERR_INVALID_PARAM`. -/
theorem np_getValue_metadata (npp : Nat) (mem : String) :
    NP_GetValue npp NPPVpluginNameString mem =
        (NPERR_NO_ERROR, "Simple Get Plugin") ∧
    NP_GetValue npp NPPVpluginDescriptionString mem =
        (NPERR_NO_ERROR, "Connects the Simple Get extesion to the download managers") ∧
    ∀ v : Nat, v ≠ NPPVpluginNameString → v ≠ NPPVpluginDescriptionString →
      (NP_GetValue npp v mem).1 = NPERR_INVALID_PARAM := by
  refine ⟨rfl, rfl, fun v hn hd => ?_⟩
  simp [NP_GetValue, hn, hd]

/-- Witness for C6: concrete instantiation at variable 7 (neither metadata
variable), discharging both hypotheses. -/
theorem np_getValue_metadata_witness :
    (NP_GetValue 0 7 "untouched").1 = NPERR_INVALID_PARAM :=
  (np_getValue_metadata 0 "untouched").2.2 7 (by decide) (by decide)

/-- C7: `NP_GetMIMEDescription` returns the same fixed string on every call, and
the MIME type (the segment before the first `::`) is
`"application/x-simplegetplugin"`. -/
theorem np_getMIMEDescription_fixed (u v : Unit) :
    NP_GetMIMEDescription u = NP_GetMIMEDescription v ∧
    mimeTypeOf (NP_GetMIMEDescription u) = "application/x-simplegetplugin" := by
  exact ⟨rfl, by cases u; decide⟩

/-- C8: when `NP_GetValue` is called with a variable other than
`NPPVpluginNameString` and `NPPVpluginDescriptionString`, the memory the `value`
pointer refers to is left unchanged. -/
theorem np_getValue_frame (npp : Nat) (v : Nat) (mem : String)
    (hn : v ≠ NPPVpluginNameString) (hd : v ≠ NPPVpluginDescriptionString) :
    (NP_GetValue npp v mem).2 = mem := by
  simp [NP_GetValue, hn, hd]

/-- Witness for C8: concrete instantiation at variable 5, discharging both
hypotheses. -/
theorem np_getValue_frame_witness :
    (NP_GetValue 3 5 "original contents").2 = "original contents" :=
  np_getValue_frame 3 5 "original contents" (by decide) (by decide)

/-- C9: the return value of `callApplication` is independent of its inputs: any
two calls, on any OS families, with any spawn outcomes and any argument strings,
return equal status strings. -/
theorem callApplication_noninterference (os₁ os₂ : OSFamily)
    (spawn₁ spawn₂ : OSCall → Int) (a₁ p₁ a₂ p₂ : String) :
    (callApplication os₁ spawn₁ a₁ p₁).1 = (callApplication os₂ spawn₂ a₂ p₂).1 := by
  cases os₁ <;> cases os₂ <;> rfl

/-- C10: `set_real` makes `real` return exactly the stored value and leaves
`imaginary` unchanged; symmetrically for `set_imaginary`; and the default
constructor yields `real = 0` and `imaginary = 0`. -/
theorem complex_setters_getters (c : Complex) (v : Float) :
    (c.set_real v).real = v ∧
    (c.set_real v).imaginary = c.imaginary ∧
    (c.set_imaginary v).imaginary = v ∧
    (c.set_imaginary v).real = c.real ∧
    Complex.mkDefault.real = 0 ∧
    Complex.mkDefault.imaginary = 0 :=
  ⟨rfl, rfl, rfl, rfl, rfl, rfl⟩

end SimpleGet
